import Mathlib

/-!
Verification of the snapshot-backend NSRDB handler.

The repository has two source files with a shared CSV-parsing core:
* `src/api/nsrdb.js` — catalog-driven handler ("Mode A"): dataset/year
  selection (lines 39-61), download-link lookup (lines 63-72), CSV parsing
  and aggregation (lines 89-166).
* `src/unnamed/part_000` — fixed-candidate handler ("Mode B"): 2023-then-2022
  fetch fallback (lines 41-83) and `processResponse` (lines 93-167), whose
  parsing body is line-for-line the same as the Mode A parsing section.

JavaScript strings are modelled as `List Char`; `String.prototype.split`,
`trim`, `toUpperCase` and `parseFloat` are given executable structural
models below.  JS numbers are modelled as `ℚ` (the claims under scrutiny
concern which rows contribute and which exact divisors appear, not binary
rounding); `parseFloat` results that are NaN or ±Infinity are modelled as
`none`, mirroring the `Number.isFinite` guards in the source.
-/

namespace SnapshotBackend

/-- Model of `s.toUpperCase()` (ASCII letters, which is all the source
compares). -/
def upChars (l : List Char) : List Char := l.map Char.toUpper

/-- Model of `s.trim()`: strip whitespace from both ends. -/
def trimChars (l : List Char) : List Char :=
  ((l.dropWhile Char.isWhitespace).reverse.dropWhile Char.isWhitespace).reverse

/-- Model of `s.split(sep)` for a one-character separator: never returns an
empty list, and `"".split(sep) = [""]`. -/
def splitOnChar (sep : Char) : List Char → List (List Char)
  | [] => [[]]
  | c :: rest =>
    match splitOnChar sep rest with
    | [] => [[c]]
    | g :: gs => if c == sep then [] :: g :: gs else (c :: g) :: gs

/-- Numeric value of a digit run. -/
def digitsVal (ds : List Char) : Nat :=
  ds.foldl (fun a c => a * 10 + (c.toNat - ('0').toNat)) 0

/-- Exponent part of a JS float literal: optional sign then digits; if no
digit follows, `parseFloat` keeps only the shorter valid prefix, i.e. the
exponent contributes 0. -/
def expVal (cs : List Char) : Int :=
  match cs with
  | '+' :: rest =>
    let ds := rest.takeWhile Char.isDigit
    if ds.isEmpty then 0 else (digitsVal ds : Int)
  | '-' :: rest =>
    let ds := rest.takeWhile Char.isDigit
    if ds.isEmpty then 0 else -(digitsVal ds : Int)
  | rest =>
    let ds := rest.takeWhile Char.isDigit
    if ds.isEmpty then 0 else (digitsVal ds : Int)

/-- Model of `Number.isFinite(parseFloat(s))`-guarded reading of a field, as
in `src/api/nsrdb.js` lines 128-134: skip leading whitespace, optional sign,
then the longest decimal-literal prefix (`digits`, `digits.`, `.digits`,
`digits.digits`, optional exponent).  A leading `Infinity` parses to an
infinite value and a digit-free string to NaN; both fail the finiteness
guard, so both are `none`.  (Overflow of a huge finite literal to IEEE
infinity is not modelled: values are exact rationals.) -/
def parseFloatFinite (s : List Char) : Option ℚ :=
  let cs0 := s.dropWhile Char.isWhitespace
  match cs0 with
  | '+' :: rest => parseFloatMag 1 rest
  | '-' :: rest => parseFloatMag (-1) rest
  | rest => parseFloatMag 1 rest
where
  /-- Unsigned part of the `parseFloat` model; `sgn` is the sign read. -/
  parseFloatMag (sgn : ℚ) (cs : List Char) : Option ℚ :=
    if cs.take 8 == "Infinity".toList then none
    else
      let intPart := cs.takeWhile Char.isDigit
      let cs1 := cs.dropWhile Char.isDigit
      match cs1 with
      | '.' :: rest =>
        let fracPart := rest.takeWhile Char.isDigit
        if intPart.isEmpty && fracPart.isEmpty then none
        else
          let e : Int :=
            match rest.dropWhile Char.isDigit with
            | 'e' :: rest2 => expVal rest2
            | 'E' :: rest2 => expVal rest2
            | _ => 0
          some (sgn * ((digitsVal (intPart ++ fracPart) : ℚ) /
            (10 : ℚ) ^ fracPart.length) * (10 : ℚ) ^ e)
      | other =>
        if intPart.isEmpty then none
        else
          let e : Int :=
            match other with
            | 'e' :: rest2 => expVal rest2
            | 'E' :: rest2 => expVal rest2
            | _ => 0
          some (sgn * (digitsVal intPart : ℚ) * (10 : ℚ) ^ e)

/-! ### The CSV parsing core

`src/api/nsrdb.js` lines 89-166 = `src/unnamed/part_000` lines 93-166
(`processResponse`).  The spec calls this `parseSeries`. -/

/-- Parse-failure taxonomy of the parsing core (spec §7): the four
structural-payload errors. -/
inductive ParseError where
  | insufficientData
  | headerNotFound
  | columnNotFound
  | noValidRecords
  deriving DecidableEq

/-- The `solar` object built at `src/api/nsrdb.js` lines 144-158 (minus the
externally supplied `year`). -/
structure Summary where
  annualGhi : ℚ
  annualDni : ℚ
  avgGhiDaily : ℚ
  avgDniDaily : ℚ
  hoursRecorded : Nat
  deriving DecidableEq

/-- `const lines = csvText.trim().split('\n')` (line 90). -/
def linesOf (csvText : String) : List (List Char) :=
  splitOnChar '\n' (trimChars csvText.toList)

/-- The three-character token `GHI`. -/
def ghiToken : List Char := ['G', 'H', 'I']

/-- The three-character token `DNI`. -/
def dniToken : List Char := ['D', 'N', 'I']

/-- Model of `s.includes('GHI')`: some suffix starts with `GHI`. -/
def hasGHIFrom : List Char → Bool
  | [] => false
  | c :: rest => ((c :: rest).take 3 == ghiToken) || hasGHIFrom rest

/-- `lines[i].toUpperCase().includes('GHI')` (line 101). -/
def ghiHeaderLine (line : List Char) : Bool := hasGHIFrom (upChars line)

/-- The header-scan loop, lines 99-105: first index `i <
Math.min(15, lines.length)` whose line contains `GHI` case-insensitively;
`none` models `headerIdx === -1`. -/
def findHeaderIdx (lines : List (List Char)) : Option Nat :=
  (List.range (min 15 lines.length)).find? (fun i => ghiHeaderLine (lines.getD i []))

/-- `lines[headerIdx].split(',').map(s => s.trim().toUpperCase())` (line 113). -/
def headerFields (line : List Char) : List (List Char) :=
  (splitOnChar ',' line).map (fun s => upChars (trimChars s))

/-- Model of `Array.prototype.indexOf`: first index holding exactly `tok`,
`none` for `-1`. -/
def indexOfTok (tok : List Char) : List (List Char) → Option Nat
  | [] => none
  | t :: rest => if t == tok then some 0 else (indexOfTok tok rest).map (· + 1)

/-- `parseFloat(cols[ghiIdx])` guarded by `Number.isFinite` (lines 128, 131);
a missing field (row shorter than `ghiIdx`) is `undefined` and parses to
NaN, hence `none`. -/
def validGhi (ghiIdx : Nat) (cols : List (List Char)) : Option ℚ :=
  (cols[ghiIdx]?).bind parseFloatFinite

/-- `dniIdx >= 0 ? parseFloat(cols[dniIdx]) : NaN` guarded by
`Number.isFinite` (lines 129, 134). -/
def validDni (dniIdx : Option Nat) (cols : List (List Char)) : Option ℚ :=
  match dniIdx with
  | none => none
  | some j => (cols[j]?).bind parseFloatFinite

/-- One iteration of the row loop (lines 126-136) on the accumulator
`(ghiSum, dniSum, count)`: `cols = lines[i].split(',')`, skip unless the GHI
field is finite, add DNI only when it is also finite. -/
def accumRow (ghiIdx : Nat) (dniIdx : Option Nat) (acc : ℚ × ℚ × Nat)
    (line : List Char) : ℚ × ℚ × Nat :=
  match validGhi ghiIdx (splitOnChar ',' line) with
  | none => acc
  | some g =>
    match validDni dniIdx (splitOnChar ',' line) with
    | some d => (acc.1 + g, acc.2.1 + d, acc.2.2 + 1)
    | none => (acc.1 + g, acc.2.1, acc.2.2 + 1)

/-- The row loop over `lines[headerIdx+1 ..]`, starting from
`ghiSum = 0, dniSum = 0, count = 0` (lines 124-136). -/
def parseCore (lines : List (List Char)) (headerIdx ghiIdx : Nat)
    (dniIdx : Option Nat) : ℚ × ℚ × Nat :=
  (lines.drop (headerIdx + 1)).foldl (accumRow ghiIdx dniIdx) (0, 0, 0)

/-- Lines 144-158: `ghiAnnualKwh = ghiSum / 1000` (Wh/m² → kWh/m²), same for
DNI, daily averages as `annual / 365`, `hoursRecorded = count`. -/
def mkSummary (r : ℚ × ℚ × Nat) : Summary :=
  { annualGhi := r.1 / 1000
    annualDni := r.2.1 / 1000
    avgGhiDaily := r.1 / 1000 / 365
    avgDniDaily := r.2.1 / 1000 / 365
    hoursRecorded := r.2.2 }

/-- Lines 124-158 given the resolved column indices: run the row loop, fail
with `noValidRecords` when `!count`, otherwise build the summary. -/
def afterColumns (lines : List (List Char)) (headerIdx ghiIdx : Nat)
    (dniIdx : Option Nat) : Except ParseError Summary :=
  if (parseCore lines headerIdx ghiIdx dniIdx).2.2 = 0 then .error .noValidRecords
  else .ok (mkSummary (parseCore lines headerIdx ghiIdx dniIdx))

/-- Lines 113-158 given the header index: resolve `ghiIdx` (required exact
token) and `dniIdx` (optional exact token), then accumulate. -/
def afterHeader (lines : List (List Char)) (headerIdx : Nat) :
    Except ParseError Summary :=
  match indexOfTok ghiToken (headerFields (lines.getD headerIdx [])) with
  | none => .error .columnNotFound
  | some ghiIdx =>
    afterColumns lines headerIdx ghiIdx
      (indexOfTok dniToken (headerFields (lines.getD headerIdx [])))

/-- The parsing core, `src/api/nsrdb.js` lines 89-158 /
`src/unnamed/part_000` lines 93-166 (spec §4.1 `parseSeries`): split the
trimmed payload into lines, require at least 10, locate the header by
case-insensitive `GHI` substring within the first 15 lines, then resolve
columns and accumulate rows. -/
def parseSeries (csvText : String) : Except ParseError Summary :=
  if (linesOf csvText).length < 10 then .error .insufficientData
  else
    match findHeaderIdx (linesOf csvText) with
    | none => .error .headerNotFound
    | some headerIdx => afterHeader (linesOf csvText) headerIdx

/-- The number of data rows after the header whose GHI field parses to a
finite number — the count the spec says `sampleCount` must equal. -/
def validRowCount (lines : List (List Char)) (headerIdx ghiIdx : Nat) : Nat :=
  (lines.drop (headerIdx + 1)).countP
    (fun l => (validGhi ghiIdx (splitOnChar ',' l)).isSome)

/-! ### Mode A — catalog-driven selection (`src/api/nsrdb.js` lines 33-87)

`availableYears` entries are either numeric years (`some y`, JS `typeof y
=== 'number'`) or non-numeric markers such as `"tmy"` (`none`).  An absent
`links` field (the source guards with `bestDataset.links?.find`) is
modelled as `none`. -/

/-- One entry of a dataset's `links` array. -/
structure NsrdbLink where
  year : Int
  interval : Int
  url : String
  deriving DecidableEq

/-- One entry of `queryData.outputs`. -/
structure Dataset where
  displayName : String
  type : String
  resolution : String
  availableYears : List (Option Int)
  links : Option (List NsrdbLink)
  deriving DecidableEq

/-- Lines 47-49: `availableYears.filter(y => typeof y === 'number').sort((a,
b) => b - a)` followed by taking index `[0]` — i.e. the maximum numeric
year, `none` when there is none (which also covers the line-44 guard for an
absent or empty `availableYears`). -/
def maxNumericYear (ds : Dataset) : Option Int :=
  (ds.availableYears.filterMap id).max?

/-- The selection loop of lines 40-55, with the loop index recorded so that
first-seen tie-breaking is an observable fact: state is
`(bestDataset, mostRecentYear)`, initially `(null, 0)`; a dataset updates
the state exactly when its largest numeric year strictly exceeds
`mostRecentYear`. -/
def selectAux : List Dataset → Nat → Option (Nat × Dataset) × Int →
    Option (Nat × Dataset) × Int
  | [], _, acc => acc
  | ds :: rest, i, acc =>
    selectAux rest (i + 1)
      (match maxNumericYear ds with
       | none => acc
       | some m => if acc.2 < m then (some (i, ds), m) else acc)

/-- `bestDataset`/`mostRecentYear` after the loop of lines 40-55. -/
def selectBestIdx (outputs : List Dataset) : Option (Nat × Dataset) × Int :=
  selectAux outputs 0 (none, 0)

/-- Lines 64-66: `bestDataset.links?.find(link => link.year ===
mostRecentYear && link.interval === 60)`. -/
def findYearLink (links : Option (List NsrdbLink)) (y : Int) : Option NsrdbLink :=
  match links with
  | none => none
  | some ls => ls.find? (fun l => l.year == y && l.interval == 60)

/-- Outcome of the Mode A steps up to the series fetch (lines 33-80):
`noData` is the 404 of line 34, `noRecentYear` the 404 of line 58,
`noDownloadLink` the 404 of line 69, and `fetchSeries` means the handler
proceeds to download the selected year with the found link. -/
inductive ModeAResult where
  | noData
  | noRecentYear
  | noDownloadLink (datasetName : String) (year : Int)
  | fetchSeries (ds : Dataset) (year : Int) (link : NsrdbLink)
  deriving DecidableEq

/-- Lines 33-80 of `src/api/nsrdb.js`: empty-catalog check, selection loop,
the `!bestDataset || !mostRecentYear` guard of line 57 (the second disjunct
fires exactly on `mostRecentYear === 0`), then the download-link lookup. -/
def modeA (outputs : List Dataset) : ModeAResult :=
  if outputs.isEmpty then .noData
  else
    match selectBestIdx outputs with
    | (none, _) => .noRecentYear
    | (some (_, ds), y) =>
      if y = 0 then .noRecentYear
      else
        match findYearLink ds.links y with
        | none => .noDownloadLink ds.displayName y
        | some l => .fetchSeries ds y l

/-! ### Mode B — fixed candidate list (`src/unnamed/part_000` lines 20-91)

The fetch of one candidate year is abstracted as a function
`Int → FetchOutcome`; `ok` is `resp.ok` (a 2xx status) with the body text,
`err` carries the non-success status. -/

/-- Result of fetching one candidate year. -/
inductive FetchOutcome where
  | ok (body : String)
  | err (status : Nat)
  deriving DecidableEq

/-- Terminal outcome of the Mode B handler: `result` is a call of
`processResponse` on the single fetched year (carrying that year and the
parse outcome), `fetchFailed` an error response carrying the status of the
last failed fetch. -/
inductive ModeBResult where
  | result (year : Int) (outcome : Except ParseError Summary)
  | fetchFailed (status : Nat)

/-- Line 47: the statuses on which the source falls back to 2022. -/
def retryableStatus (s : Nat) : Bool := s == 400 || s == 404

/-- Lines 41-83: fetch 2023; on success hand the body to `processResponse`
(whose parsing body is `parseSeries`) regardless of how parsing goes; on a
retryable failure fetch 2022 and either hand that body over or fail with
the 2022 status; on a non-retryable failure stop at once.  The first
component records which candidate years were fetched, in order. -/
def modeBTrace (fetchYear : Int → FetchOutcome) : List Int × ModeBResult :=
  match fetchYear 2023 with
  | .ok body => ([2023], .result 2023 (parseSeries body))
  | .err s =>
    if retryableStatus s then
      match fetchYear 2022 with
      | .ok body => ([2023, 2022], .result 2022 (parseSeries body))
      | .err s2 => ([2023, 2022], .fetchFailed s2)
    else ([2023], .fetchFailed s)

deriving instance DecidableEq for Except

/-! ### Concrete payloads used to instantiate the claims -/

/-- 11 lines after trimming; header at index 2; data rows with finite GHI:
`100`, `200` (DNI field `x` is NaN) and `1` — so 3 valid rows. -/
def csvSample : String :=
  "j1\nj2\nDate,GHI,DNI\n1,100,50\n2,NaN,60\n3,,\n4,200,x\n5,1,2\nr\nr\nr"

/-- 10 lines; header at index 2; every data row's GHI field is NaN, empty
or non-numeric. -/
def csvNoValid : String :=
  "j1\nj2\nDate,GHI,DNI\n1,NaN,50\n2,,60\n3,x,1\nr\nr\nr\nr"

/-- 10 lines; the only GHI-mentioning header field is the non-exact token
`GHI (W/m2)`. -/
def csvNonExact : String :=
  "j1\nj2\nDate,GHI (W/m2),DNI\n1,100,50\n2,200,60\n3,1,2\nr\nr\nr\nr"

/-- 10 lines; header has an exact GHI token but no DNI token; two valid
GHI rows. -/
def csvNoDni : String :=
  "j1\nj2\nDate,GHI,Temp\n1,100,50\n2,NaN,60\n3,7,2\nr\nr\nr\nr"

/-- The summary `parseSeries` produces on `csvSample`. -/
def sampleSummary : Summary :=
  mkSummary (parseCore (linesOf csvSample) 2 1
    (indexOfTok dniToken (headerFields ((linesOf csvSample).getD 2 []))))

/-- Invariant of the selection loop after consuming the prefix `pre` of the
catalog: if no dataset has been picked the year is still the 0 sentinel and
every numeric year seen so far is ≤ 0; if `(k, ds)` has been picked then
`ds` sits at index `k`, its largest numeric year is the current positive
`mostRecentYear`, every numeric year seen so far is ≤ it, strictly so
before index `k`. -/
def SelInv (pre : List Dataset) (acc : Option (Nat × Dataset) × Int) : Prop :=
  (acc.1 = none → acc.2 = 0 ∧ ∀ ds ∈ pre, ∀ m, maxNumericYear ds = some m → m ≤ 0) ∧
  (∀ k ds, acc.1 = some (k, ds) →
    pre[k]? = some ds ∧ maxNumericYear ds = some acc.2 ∧ 0 < acc.2 ∧
    ∀ j dj m, pre[j]? = some dj → maxNumericYear dj = some m →
      m ≤ acc.2 ∧ (j < k → m < acc.2))

/-- Catalog with a dataset whose only numeric available year is 0; the
claim says Mode A must select it (its largest numeric year is trivially the
strictly greatest), but the `mostRecentYear = 0` sentinel of line 41 makes
the code answer `NoRecentYearError` instead. -/
def dsZero : Dataset :=
  { displayName := "Z", type := "t", resolution := "r",
    availableYears := [some 0], links := some [⟨0, 60, "u"⟩] }

/-- Two-dataset catalog: the first offers 2019, a marker and 2021, the
second offers 2020; the selection must pick the first dataset with 2021. -/
def dsA : Dataset :=
  { displayName := "A", type := "t", resolution := "r",
    availableYears := [some 2019, none, some 2021], links := some [] }

/-- Second dataset of the concrete catalog. -/
def dsB : Dataset :=
  { displayName := "B", type := "t", resolution := "r",
    availableYears := [some 2020], links := none }

/-- The concrete two-dataset catalog. -/
def outputsEx : List Dataset := [dsA, dsB]

/-- A fetch oracle for the witness: 2023 is unavailable with status 404,
2022 succeeds with the sample payload. -/
def fetchEx : Int → FetchOutcome :=
  fun y => if y == 2023 then .err 404 else .ok csvSample

/-! ### Helper lemmas: the row loop -/

theorem accumRow_skip (ghiIdx : Nat) (dniIdx : Option Nat) (acc : ℚ × ℚ × Nat)
    (line : List Char) (h : validGhi ghiIdx (splitOnChar ',' line) = none) :
    accumRow ghiIdx dniIdx acc line = acc := by
  unfold accumRow
  rw [h]

theorem accumRow_ghi_only (ghiIdx : Nat) (dniIdx : Option Nat) (acc : ℚ × ℚ × Nat)
    (line : List Char) (g : ℚ)
    (hg : validGhi ghiIdx (splitOnChar ',' line) = some g)
    (hd : validDni dniIdx (splitOnChar ',' line) = none) :
    accumRow ghiIdx dniIdx acc line = (acc.1 + g, acc.2.1, acc.2.2 + 1) := by
  unfold accumRow
  rw [hg, hd]

theorem accumRow_count (ghiIdx : Nat) (dniIdx : Option Nat) (acc : ℚ × ℚ × Nat)
    (line : List Char) :
    (accumRow ghiIdx dniIdx acc line).2.2 =
      acc.2.2 + (if (validGhi ghiIdx (splitOnChar ',' line)).isSome then 1 else 0) := by
  unfold accumRow
  cases h : validGhi ghiIdx (splitOnChar ',' line) with
  | none => simp [h]
  | some g => cases hd : validDni dniIdx (splitOnChar ',' line) <;> simp [h, hd]

theorem foldl_accumRow_count (ghiIdx : Nat) (dniIdx : Option Nat) :
    ∀ (ls : List (List Char)) (acc : ℚ × ℚ × Nat),
      (ls.foldl (accumRow ghiIdx dniIdx) acc).2.2 =
        acc.2.2 + ls.countP (fun l => (validGhi ghiIdx (splitOnChar ',' l)).isSome)
  | [], acc => by simp
  | l :: ls, acc => by
    rw [List.foldl_cons, foldl_accumRow_count ghiIdx dniIdx ls, accumRow_count,
      List.countP_cons]
    by_cases h : (validGhi ghiIdx (splitOnChar ',' l)).isSome
    all_goals simp [h]
    all_goals omega

/-- The `count` component of the row loop is exactly the number of rows
whose GHI field is finite. -/
theorem parseCore_count (lines : List (List Char)) (headerIdx ghiIdx : Nat)
    (dniIdx : Option Nat) :
    (parseCore lines headerIdx ghiIdx dniIdx).2.2 =
      validRowCount lines headerIdx ghiIdx := by
  unfold parseCore validRowCount
  rw [foldl_accumRow_count]
  simp

theorem accumRow_dni_none (ghiIdx : Nat) (acc : ℚ × ℚ × Nat) (line : List Char) :
    (accumRow ghiIdx none acc line).2.1 = acc.2.1 := by
  unfold accumRow
  cases h : validGhi ghiIdx (splitOnChar ',' line) <;> simp [h, validDni]

theorem foldl_accumRow_dni_none (ghiIdx : Nat) :
    ∀ (ls : List (List Char)) (acc : ℚ × ℚ × Nat),
      (ls.foldl (accumRow ghiIdx none) acc).2.1 = acc.2.1
  | [], acc => by simp
  | l :: ls, acc => by
    rw [List.foldl_cons, foldl_accumRow_dni_none ghiIdx ls]
    exact accumRow_dni_none ghiIdx acc l

/-- When there is no DNI column, the DNI running sum stays 0. -/
theorem parseCore_dni_none (lines : List (List Char)) (headerIdx ghiIdx : Nat) :
    (parseCore lines headerIdx ghiIdx none).2.1 = 0 := by
  unfold parseCore
  rw [foldl_accumRow_dni_none]

/-! ### Helper lemmas: control flow of `parseSeries` -/

theorem parseSeries_insufficient {s : String} (h : (linesOf s).length < 10) :
    parseSeries s = .error .insufficientData := by
  unfold parseSeries
  rw [if_pos h]

theorem parseSeries_eq_afterHeader {s : String} {hIdx : Nat}
    (hlen : ¬ (linesOf s).length < 10)
    (hfind : findHeaderIdx (linesOf s) = some hIdx) :
    parseSeries s = afterHeader (linesOf s) hIdx := by
  unfold parseSeries
  rw [if_neg hlen, hfind]

theorem afterHeader_no_ghi {lines : List (List Char)} {hIdx : Nat}
    (hg : indexOfTok ghiToken (headerFields (lines.getD hIdx [])) = none) :
    afterHeader lines hIdx = .error .columnNotFound := by
  unfold afterHeader
  rw [hg]

theorem afterHeader_eq_afterColumns {lines : List (List Char)} {hIdx gIdx : Nat}
    (hg : indexOfTok ghiToken (headerFields (lines.getD hIdx [])) = some gIdx) :
    afterHeader lines hIdx =
      afterColumns lines hIdx gIdx
        (indexOfTok dniToken (headerFields (lines.getD hIdx []))) := by
  unfold afterHeader
  rw [hg]

theorem afterColumns_ok {lines : List (List Char)} {hIdx gIdx : Nat}
    {dIdx : Option Nat} (h : (parseCore lines hIdx gIdx dIdx).2.2 ≠ 0) :
    afterColumns lines hIdx gIdx dIdx = .ok (mkSummary (parseCore lines hIdx gIdx dIdx)) := by
  unfold afterColumns
  rw [if_neg h]

theorem afterColumns_empty {lines : List (List Char)} {hIdx gIdx : Nat}
    {dIdx : Option Nat} (h : (parseCore lines hIdx gIdx dIdx).2.2 = 0) :
    afterColumns lines hIdx gIdx dIdx = .error .noValidRecords := by
  unfold afterColumns
  rw [if_pos h]

/-- Forward evaluation of a successful parse: the hypotheses mirror the
fall-through conditions of lines 92-142 and determine the result. -/
theorem parseSeries_ok_of {s : String} {hIdx gIdx : Nat}
    (hlen : ¬ (linesOf s).length < 10)
    (hfind : findHeaderIdx (linesOf s) = some hIdx)
    (hg : indexOfTok ghiToken (headerFields ((linesOf s).getD hIdx [])) = some gIdx)
    (hcnt : (parseCore (linesOf s) hIdx gIdx
        (indexOfTok dniToken (headerFields ((linesOf s).getD hIdx [])))).2.2 ≠ 0) :
    parseSeries s = .ok (mkSummary (parseCore (linesOf s) hIdx gIdx
        (indexOfTok dniToken (headerFields ((linesOf s).getD hIdx []))))) := by
  rw [parseSeries_eq_afterHeader hlen hfind, afterHeader_eq_afterColumns hg,
    afterColumns_ok hcnt]

/-- Inversion of a successful parse: success pins down the whole pipeline. -/
theorem parseSeries_ok_inv {s : String} {sum : Summary}
    (h : parseSeries s = .ok sum) :
    ∃ hIdx gIdx, ¬ (linesOf s).length < 10 ∧
      findHeaderIdx (linesOf s) = some hIdx ∧
      indexOfTok ghiToken (headerFields ((linesOf s).getD hIdx [])) = some gIdx ∧
      (parseCore (linesOf s) hIdx gIdx
          (indexOfTok dniToken (headerFields ((linesOf s).getD hIdx [])))).2.2 ≠ 0 ∧
      sum = mkSummary (parseCore (linesOf s) hIdx gIdx
          (indexOfTok dniToken (headerFields ((linesOf s).getD hIdx [])))) := by
  unfold parseSeries at h
  split at h
  · exact absurd h (by simp)
  · rename_i hlen
    split at h
    · exact absurd h (by simp)
    · rename_i hIdx hfind
      unfold afterHeader at h
      split at h
      · exact absurd h (by simp)
      · rename_i gIdx hg
        unfold afterColumns at h
        split at h
        · exact absurd h (by simp)
        · rename_i hcnt
          refine ⟨hIdx, gIdx, hlen, hfind, hg, hcnt, ?_⟩
          exact (Except.ok.injEq _ _ ▸ h).symm

/-! ### Helper lemmas: token lookup and header scan -/

theorem indexOfTok_eq_none_iff (tok : List Char) :
    ∀ l : List (List Char), indexOfTok tok l = none ↔ tok ∉ l
  | [] => by simp [indexOfTok]
  | t :: rest => by
    unfold indexOfTok
    by_cases h : t = tok
    · subst h
      simp
    · have hb : (t == tok) = false := beq_eq_false_iff_ne.mpr h
      rw [if_neg (by simp [hb])]
      simp only [Option.map_eq_none', indexOfTok_eq_none_iff tok rest]
      constructor
      · intro hn hmem
        rcases List.mem_cons.mp hmem with h1 | h1
        · exact h h1.symm
        · exact hn h1
      · intro hn hmem
        exact hn (List.mem_cons_of_mem _ hmem)

/-- `find?` over `List.range` returns the least index satisfying the
predicate. -/
theorem find?_range_first {p : Nat → Bool} {n k : Nat}
    (h : (List.range n).find? p = some k) :
    p k = true ∧ k < n ∧ ∀ j, j < k → p j = false := by
  obtain ⟨hpk, as, bs, heq, hall⟩ := List.find?_eq_some.mp h
  have hlen := congrArg List.length heq
  simp only [List.length_range, List.length_append, List.length_cons] at hlen
  have hklt : as.length < n := by omega
  have hk : k = as.length := by
    have h1 : (List.range n)[as.length]? = some k := by
      rw [heq, List.getElem?_append_right (Nat.le_refl _)]
      simp
    have h2 := List.getElem?_range hklt
    exact Option.some_inj.mp (h1.symm.trans h2)
  subst hk
  refine ⟨hpk, hklt, fun j hj => ?_⟩
  have hmem : j ∈ as := by
    have htake : as = List.range as.length := by
      have h2 : (List.range n).take as.length = as := by
        rw [heq]
        exact List.take_left ..
      rw [List.take_range, Nat.min_eq_left (Nat.le_of_lt hklt)] at h2
      exact h2.symm
    rw [htake]
    exact List.mem_range.mpr hj
  simpa using hall j hmem

/-! ### Claims about the parsing core -/

/-- Claim C1: for every payload with at least 10 lines, a header line
containing the substring `GHI` case-insensitively within the scanned
window, an exact `GHI` column token in that header, and at least one data
row after the header whose GHI field parses to a finite number, parsing
succeeds and `hoursRecorded` equals exactly the number of lines after the
header whose GHI field parses to a finite number. -/
theorem parseSeries_sampleCount_exact (s : String) (hIdx gIdx : Nat)
    (hlen : 10 ≤ (linesOf s).length)
    (hfind : findHeaderIdx (linesOf s) = some hIdx)
    (hg : indexOfTok ghiToken (headerFields ((linesOf s).getD hIdx [])) = some gIdx)
    (hvalid : 0 < validRowCount (linesOf s) hIdx gIdx) :
    ∃ sum, parseSeries s = .ok sum ∧
      sum.hoursRecorded = validRowCount (linesOf s) hIdx gIdx := by
  have hlen' : ¬ (linesOf s).length < 10 := by omega
  have hcnt : (parseCore (linesOf s) hIdx gIdx
      (indexOfTok dniToken (headerFields ((linesOf s).getD hIdx [])))).2.2 ≠ 0 := by
    rw [parseCore_count]
    omega
  exact ⟨_, parseSeries_ok_of hlen' hfind hg hcnt, parseCore_count ..⟩

theorem parseSeries_sampleCount_exact_witness :
    ∃ sum, parseSeries csvSample = .ok sum ∧
      sum.hoursRecorded = validRowCount (linesOf csvSample) 2 1 :=
  parseSeries_sampleCount_exact csvSample 2 1 (by decide) (by decide) (by decide)
    (by decide)

/-- Claim C4: a payload that splits into fewer than 10 lines fails with
`InsufficientDataError`, whatever its lines contain — the result does not
depend on any header scan, column lookup or row accumulation. -/
theorem parseSeries_insufficient_lines (s : String)
    (h : (linesOf s).length < 10) :
    parseSeries s = .error .insufficientData :=
  parseSeries_insufficient h

theorem parseSeries_insufficient_lines_witness :
    parseSeries "a\nDate,GHI,DNI\n1,100,50" = .error .insufficientData :=
  parseSeries_insufficient_lines "a\nDate,GHI,DNI\n1,100,50" (by decide)

/-- Claim C3: with a located header and GHI column but zero data rows whose
GHI field parses finite, parsing fails with `NoValidRecordsError`; and every
successfully returned summary has `hoursRecorded ≥ 1` — a zero-sample
summary is never returned. -/
theorem parseSeries_no_valid_records (s : String) :
    (∀ hIdx gIdx, 10 ≤ (linesOf s).length →
      findHeaderIdx (linesOf s) = some hIdx →
      indexOfTok ghiToken (headerFields ((linesOf s).getD hIdx [])) = some gIdx →
      validRowCount (linesOf s) hIdx gIdx = 0 →
      parseSeries s = .error .noValidRecords) ∧
    (∀ sum, parseSeries s = .ok sum → 1 ≤ sum.hoursRecorded) := by
  constructor
  · intro hIdx gIdx hlen hfind hg hzero
    have hlen' : ¬ (linesOf s).length < 10 := by omega
    rw [parseSeries_eq_afterHeader hlen' hfind, afterHeader_eq_afterColumns hg,
      afterColumns_empty (by rw [parseCore_count]; exact hzero)]
  · intro sum hok
    obtain ⟨hIdx, gIdx, _, _, _, hcnt, hsum⟩ := parseSeries_ok_inv hok
    have : sum.hoursRecorded = (parseCore (linesOf s) hIdx gIdx
        (indexOfTok dniToken (headerFields ((linesOf s).getD hIdx [])))).2.2 := by
      rw [hsum]
      rfl
    omega

theorem parseSeries_no_valid_records_witness :
    parseSeries csvNoValid = .error .noValidRecords :=
  (parseSeries_no_valid_records csvNoValid).1 2 1 (by decide) (by decide) (by decide)
    (by decide)

/-- Claim C5: header detection is substring-based (the found header is the
first line whose uppercasing contains `GHI`), while column lookup demands
exact-token equality; hence a payload whose located header has no exact
`GHI` field — e.g. only `GHI (W/m2)` — fails with `ColumnNotFoundError`
even though the header was located. -/
theorem header_substring_vs_column_exact (s : String) (hIdx : Nat)
    (hlen : 10 ≤ (linesOf s).length)
    (hfind : findHeaderIdx (linesOf s) = some hIdx)
    (hnoghi : ghiToken ∉ headerFields ((linesOf s).getD hIdx [])) :
    ghiHeaderLine ((linesOf s).getD hIdx []) = true ∧
    (∀ j, j < hIdx → ghiHeaderLine ((linesOf s).getD j []) = false) ∧
    parseSeries s = .error .columnNotFound := by
  have hfind' : (List.range (min 15 (linesOf s).length)).find?
      (fun i => ghiHeaderLine ((linesOf s).getD i [])) = some hIdx := hfind
  have hfirst := find?_range_first hfind'
  refine ⟨hfirst.1, fun j hj => hfirst.2.2 j hj, ?_⟩
  have hlen' : ¬ (linesOf s).length < 10 := by omega
  rw [parseSeries_eq_afterHeader hlen' hfind,
    afterHeader_no_ghi ((indexOfTok_eq_none_iff _ _).mpr hnoghi)]

theorem header_substring_vs_column_exact_witness :
    ghiHeaderLine ((linesOf csvNonExact).getD 2 []) = true ∧
    (∀ j, j < 2 → ghiHeaderLine ((linesOf csvNonExact).getD j []) = false) ∧
    parseSeries csvNonExact = .error .columnNotFound :=
  header_substring_vs_column_exact csvNonExact 2 (by decide) (by decide) (by decide)

/-- Claim C6: a row whose GHI field is missing or non-finite contributes
nothing to the sums or the count, at whatever position it sits among the
data rows; a row with finite GHI but missing/non-finite DNI adds its GHI
value and bumps the count while leaving the DNI sum unchanged. -/
theorem row_contribution_rules (ghiIdx : Nat) (dniIdx : Option Nat)
    (pre post : List (List Char)) (bad good : List Char) (g : ℚ)
    (hbad : validGhi ghiIdx (splitOnChar ',' bad) = none)
    (hgood : validGhi ghiIdx (splitOnChar ',' good) = some g)
    (hnod : validDni dniIdx (splitOnChar ',' good) = none) :
    ((pre ++ bad :: post).foldl (accumRow ghiIdx dniIdx) (0, 0, 0) =
      (pre ++ post).foldl (accumRow ghiIdx dniIdx) (0, 0, 0)) ∧
    (∀ acc : ℚ × ℚ × Nat,
      accumRow ghiIdx dniIdx acc good = (acc.1 + g, acc.2.1, acc.2.2 + 1)) := by
  constructor
  · rw [List.foldl_append, List.foldl_append, List.foldl_cons,
      accumRow_skip _ _ _ _ hbad]
  · intro acc
    exact accumRow_ghi_only _ _ _ _ _ hgood hnod

theorem row_contribution_rules_witness :
    ((["1,100,50".toList] ++ "2,NaN,60".toList :: []).foldl
        (accumRow 1 (some 2)) (0, 0, 0) =
      (["1,100,50".toList] ++ []).foldl (accumRow 1 (some 2)) (0, 0, 0)) ∧
    (∀ acc : ℚ × ℚ × Nat,
      accumRow 1 (some 2) acc "4,200,x".toList =
        (acc.1 + (validGhi 1 (splitOnChar ',' "4,200,x".toList)).getD 0,
          acc.2.1, acc.2.2 + 1)) := by
  have hgood : validGhi 1 (splitOnChar ',' "4,200,x".toList) =
      some ((validGhi 1 (splitOnChar ',' "4,200,x".toList)).getD 0) := by
    cases hx : validGhi 1 (splitOnChar ',' "4,200,x".toList) with
    | none => exact absurd hx (by decide)
    | some v => rfl
  exact row_contribution_rules 1 (some 2) ["1,100,50".toList] []
    "2,NaN,60".toList "4,200,x".toList _ (by decide) hgood (by decide)

/-- Claim C7: every successful parse reports annual totals equal to the raw
sums divided by exactly 1000, and daily averages equal to the annual totals
divided by exactly 365. -/
theorem unit_conversion_and_daily_average (s : String) (sum : Summary)
    (h : parseSeries s = .ok sum) :
    ∃ hIdx gIdx,
      findHeaderIdx (linesOf s) = some hIdx ∧
      indexOfTok ghiToken (headerFields ((linesOf s).getD hIdx [])) = some gIdx ∧
      sum.annualGhi = (parseCore (linesOf s) hIdx gIdx
          (indexOfTok dniToken (headerFields ((linesOf s).getD hIdx [])))).1 / 1000 ∧
      sum.annualDni = (parseCore (linesOf s) hIdx gIdx
          (indexOfTok dniToken (headerFields ((linesOf s).getD hIdx [])))).2.1 / 1000 ∧
      sum.avgGhiDaily = sum.annualGhi / 365 ∧
      sum.avgDniDaily = sum.annualDni / 365 := by
  obtain ⟨hIdx, gIdx, _, hfind, hg, _, hsum⟩ := parseSeries_ok_inv h
  subst hsum
  exact ⟨hIdx, gIdx, hfind, hg, rfl, rfl, rfl, rfl⟩

theorem unit_conversion_and_daily_average_witness :
    ∃ hIdx gIdx,
      findHeaderIdx (linesOf csvSample) = some hIdx ∧
      indexOfTok ghiToken (headerFields ((linesOf csvSample).getD hIdx [])) = some gIdx ∧
      sampleSummary.annualGhi = (parseCore (linesOf csvSample) hIdx gIdx
          (indexOfTok dniToken (headerFields ((linesOf csvSample).getD hIdx [])))).1 / 1000 ∧
      sampleSummary.annualDni = (parseCore (linesOf csvSample) hIdx gIdx
          (indexOfTok dniToken (headerFields ((linesOf csvSample).getD hIdx [])))).2.1 / 1000 ∧
      sampleSummary.avgGhiDaily = sampleSummary.annualGhi / 365 ∧
      sampleSummary.avgDniDaily = sampleSummary.annualDni / 365 :=
  unit_conversion_and_daily_average csvSample sampleSummary
    (parseSeries_ok_of (by decide) (by decide) (by decide) (by decide))

/-- Claim C9: when the header has an exact `GHI` token but no exact `DNI`
token and at least one valid GHI row exists, parsing succeeds and the
summary carries `annualDni = 0` and `avgDniDaily = 0`. -/
theorem missing_dni_column_zero_totals (s : String) (hIdx gIdx : Nat)
    (hlen : 10 ≤ (linesOf s).length)
    (hfind : findHeaderIdx (linesOf s) = some hIdx)
    (hg : indexOfTok ghiToken (headerFields ((linesOf s).getD hIdx [])) = some gIdx)
    (hnodni : dniToken ∉ headerFields ((linesOf s).getD hIdx []))
    (hvalid : 0 < validRowCount (linesOf s) hIdx gIdx) :
    ∃ sum, parseSeries s = .ok sum ∧ sum.annualDni = 0 ∧ sum.avgDniDaily = 0 := by
  have hdni : indexOfTok dniToken (headerFields ((linesOf s).getD hIdx [])) = none :=
    (indexOfTok_eq_none_iff _ _).mpr hnodni
  have hlen' : ¬ (linesOf s).length < 10 := by omega
  have hcnt : (parseCore (linesOf s) hIdx gIdx
      (indexOfTok dniToken (headerFields ((linesOf s).getD hIdx [])))).2.2 ≠ 0 := by
    rw [parseCore_count]
    omega
  refine ⟨_, parseSeries_ok_of hlen' hfind hg hcnt, ?_, ?_⟩
  · show (parseCore (linesOf s) hIdx gIdx
        (indexOfTok dniToken (headerFields ((linesOf s).getD hIdx [])))).2.1 / 1000 = 0
    rw [hdni, parseCore_dni_none]
    simp
  · show (parseCore (linesOf s) hIdx gIdx
        (indexOfTok dniToken (headerFields ((linesOf s).getD hIdx [])))).2.1 / 1000 / 365 = 0
    rw [hdni, parseCore_dni_none]
    simp

theorem missing_dni_column_zero_totals_witness :
    ∃ sum, parseSeries csvNoDni = .ok sum ∧
      sum.annualDni = 0 ∧ sum.avgDniDaily = 0 :=
  missing_dni_column_zero_totals csvNoDni 2 1 (by decide) (by decide) (by decide)
    (by decide) (by decide)

/-! ### Helper lemmas: the Mode A selection loop -/

theorem selInv_skip {pre : List Dataset} {acc : Option (Nat × Dataset) × Int}
    {ds : Dataset} (h : SelInv pre acc)
    (hskip : ∀ m, maxNumericYear ds = some m → m ≤ acc.2) :
    SelInv (pre ++ [ds]) acc := by
  obtain ⟨h1, h2⟩ := h
  constructor
  · intro hn
    obtain ⟨hz, hall⟩ := h1 hn
    refine ⟨hz, fun d hd m hm => ?_⟩
    rcases List.mem_append.mp hd with hd | hd
    · exact hall d hd m hm
    · have hde : d = ds := by simpa using hd
      subst hde
      have := hskip m hm
      omega
  · intro k dk hk
    obtain ⟨hget, hmaxk, hpos, hbound⟩ := h2 k dk hk
    have hklt : k < pre.length := (List.getElem?_eq_some_iff.mp hget).1
    refine ⟨by rw [List.getElem?_append_left hklt]; exact hget, hmaxk, hpos, ?_⟩
    intro j dj m hj hm
    rcases Nat.lt_or_ge j pre.length with hjlt | hjge
    · exact hbound j dj m (by rwa [List.getElem?_append_left hjlt] at hj) hm
    · have hjlen : j < pre.length + 1 := by
        simpa using (List.getElem?_eq_some_iff.mp hj).1
      have hjeq : j = pre.length := by omega
      subst hjeq
      rw [List.getElem?_concat_length] at hj
      have hde : ds = dj := Option.some_inj.mp hj
      subst hde
      have := hskip m hm
      exact ⟨by omega, fun hjk => absurd hjk (by omega)⟩

theorem selInv_update {pre : List Dataset} {acc : Option (Nat × Dataset) × Int}
    {ds : Dataset} {m : Int} (h : SelInv pre acc)
    (hmax : maxNumericYear ds = some m) (hlt : acc.2 < m) :
    SelInv (pre ++ [ds]) (some (pre.length, ds), m) := by
  obtain ⟨h1, h2⟩ := h
  have hnonneg : 0 ≤ acc.2 := by
    cases hacc : acc.1 with
    | none => exact le_of_eq ((h1 hacc).1).symm
    | some p =>
      obtain ⟨k0, ds0⟩ := p
      exact le_of_lt (h2 k0 ds0 hacc).2.2.1
  constructor
  · intro hn
    simp at hn
  · intro k dk hk
    simp only [Option.some_inj, Prod.mk.injEq] at hk
    obtain ⟨hkeq, hdeq⟩ := hk
    subst hkeq
    subst hdeq
    refine ⟨List.getElem?_concat_length .., hmax, by omega, ?_⟩
    intro j dj m' hj hm'
    rcases Nat.lt_or_ge j pre.length with hjlt | hjge
    · have hj' : pre[j]? = some dj := by
        rwa [List.getElem?_append_left hjlt] at hj
      have hm'le : m' ≤ acc.2 := by
        cases hacc : acc.1 with
        | none =>
          obtain ⟨hz, hall⟩ := h1 hacc
          have := hall dj (List.getElem?_mem hj') m' hm'
          omega
        | some p =>
          obtain ⟨k0, ds0⟩ := p
          exact ((h2 k0 ds0 hacc).2.2.2 j dj m' hj' hm').1
      exact ⟨by omega, fun _ => by omega⟩
    · have hjlen : j < pre.length + 1 := by
        simpa using (List.getElem?_eq_some_iff.mp hj).1
      have hjeq : j = pre.length := by omega
      subst hjeq
      rw [List.getElem?_concat_length] at hj
      have hde : ds = dj := Option.some_inj.mp hj
      subst hde
      rw [hmax] at hm'
      have hme : m = m' := Option.some_inj.mp hm'
      exact ⟨by omega, fun hjk => absurd hjk (by omega)⟩

theorem selectAux_inv :
    ∀ (rest pre : List Dataset) (acc : Option (Nat × Dataset) × Int),
      SelInv pre acc → SelInv (pre ++ rest) (selectAux rest pre.length acc)
  | [], pre, acc, h => by simpa [selectAux] using h
  | ds :: rest, pre, acc, h => by
    have step : SelInv (pre ++ [ds])
        (match maxNumericYear ds with
         | none => acc
         | some m => if acc.2 < m then (some (pre.length, ds), m) else acc) := by
      cases hmax : maxNumericYear ds with
      | none => exact selInv_skip h (fun m hm => by rw [hmax] at hm; cases hm)
      | some m =>
        show SelInv (pre ++ [ds])
          (if acc.2 < m then (some (pre.length, ds), m) else acc)
        by_cases hlt : acc.2 < m
        · rw [if_pos hlt]
          exact selInv_update h hmax hlt
        · rw [if_neg hlt]
          exact selInv_skip h (fun m' hm' => by
            rw [hmax] at hm'
            have := Option.some_inj.mp hm'
            omega)
    have ih := selectAux_inv rest (pre ++ [ds]) _ step
    rw [List.append_cons]
    simpa [selectAux, List.length_append] using ih

/-- The state after the whole loop of lines 40-55 satisfies the invariant. -/
theorem selectBestIdx_inv (outputs : List Dataset) :
    SelInv outputs (selectBestIdx outputs) := by
  have h0 : SelInv [] ((none, 0) : Option (Nat × Dataset) × Int) := by
    constructor
    · intro _
      exact ⟨rfl, by simp⟩
    · intro k ds hk
      simp at hk
  simpa [selectBestIdx] using selectAux_inv outputs [] (none, 0) h0

/-! ### Claims about Mode A -/

/-- Claim C2, counterexample to the claim as stated: `dsZero` offers the
numeric year 0, so by the claim Mode A selects it, yet the code fails with
`NoRecentYearError`. -/
theorem modeA_year_zero_counterexample :
    maxNumericYear dsZero = some 0 ∧ modeA [dsZero] = .noRecentYear := by
  constructor
  · decide
  · decide

/-- Claim C2 (amended: only years `> 0` can win the selection, because
`mostRecentYear` starts at the sentinel 0 and is only overwritten by a
strictly larger year; with no positive numeric year — in particular with
only non-numeric markers — a non-empty catalog yields `NoRecentYearError`):
a selection happens exactly when some dataset offers a positive numeric
year (second conjunct is the contrapositive of the existence direction:
with no selection, every numeric year on offer is `≤ 0`); the selected
dataset carries the strictly largest positive numeric year, ties broken in
favour of the first-seen dataset, a marker-only dataset is never selected,
and with a selection in hand Mode A does not answer `NoRecentYearError`
(nor the no-data error). -/
theorem modeA_selects_largest_positive_year (outputs : List Dataset) :
    (∀ k ds, (selectBestIdx outputs).1 = some (k, ds) →
      outputs[k]? = some ds ∧
      maxNumericYear ds = some (selectBestIdx outputs).2 ∧
      0 < (selectBestIdx outputs).2 ∧
      (∀ j dj m, outputs[j]? = some dj → maxNumericYear dj = some m →
        m ≤ (selectBestIdx outputs).2 ∧ (j < k → m < (selectBestIdx outputs).2)) ∧
      modeA outputs ≠ .noRecentYear ∧ modeA outputs ≠ .noData) ∧
    ((selectBestIdx outputs).1 = none →
      ∀ ds ∈ outputs, ∀ m, maxNumericYear ds = some m → m ≤ 0) ∧
    ((∀ ds ∈ outputs, ∀ m, maxNumericYear ds = some m → m ≤ 0) →
      selectBestIdx outputs = (none, 0) ∧
      (outputs ≠ [] → modeA outputs = .noRecentYear)) := by
  have hinv := selectBestIdx_inv outputs
  refine ⟨?_, ?_, ?_⟩
  · intro k ds hk
    obtain ⟨hget, hmax, hpos, hbound⟩ := hinv.2 k ds hk
    have hne : outputs ≠ [] := by
      intro he
      subst he
      simp at hget
    have hpair : selectBestIdx outputs = (some (k, ds), (selectBestIdx outputs).2) := by
      rw [← hk]
    have hmodeA : modeA outputs =
        (match findYearLink ds.links (selectBestIdx outputs).2 with
         | none => ModeAResult.noDownloadLink ds.displayName (selectBestIdx outputs).2
         | some l => ModeAResult.fetchSeries ds (selectBestIdx outputs).2 l) := by
      unfold modeA
      rw [if_neg (by simp [List.isEmpty_eq_false.mpr hne]), hpair]
      dsimp only
      rw [if_neg (by omega)]
    refine ⟨hget, hmax, hpos, hbound, ?_, ?_⟩
    · rw [hmodeA]
      cases findYearLink ds.links (selectBestIdx outputs).2 <;> simp
    · rw [hmodeA]
      cases findYearLink ds.links (selectBestIdx outputs).2 <;> simp
  · exact fun hnone => (hinv.1 hnone).2
  · intro hall
    have hnone : (selectBestIdx outputs).1 = none := by
      cases hsel : (selectBestIdx outputs).1 with
      | none => rfl
      | some p =>
        obtain ⟨k, ds⟩ := p
        obtain ⟨hget, hmax, hpos, _⟩ := hinv.2 k ds hsel
        have := hall ds (List.getElem?_mem hget) _ hmax
        omega
    have hzero : (selectBestIdx outputs).2 = 0 := (hinv.1 hnone).1
    have hpair : selectBestIdx outputs = (none, 0) := by
      rw [← hnone, ← hzero]
    refine ⟨hpair, fun hne => ?_⟩
    unfold modeA
    rw [if_neg (by simp [List.isEmpty_eq_false.mpr hne]), hpair]

theorem modeA_selects_largest_positive_year_witness :
    outputsEx[0]? = some dsA ∧
    maxNumericYear dsA = some (selectBestIdx outputsEx).2 ∧
    0 < (selectBestIdx outputsEx).2 ∧
    (∀ j dj m, outputsEx[j]? = some dj → maxNumericYear dj = some m →
      m ≤ (selectBestIdx outputsEx).2 ∧ (j < 0 → m < (selectBestIdx outputsEx).2)) ∧
    modeA outputsEx ≠ .noRecentYear ∧ modeA outputsEx ≠ .noData :=
  (modeA_selects_largest_positive_year outputsEx).1 0 dsA (by decide)

/-- Claim C10: once a dataset and year are selected, the fetch proceeds
exactly when the dataset's links contain an entry whose `year` equals the
selected year and whose `interval` is 60; otherwise Mode A answers the
"No download link available" error, even though the catalog reported the
year as available. -/
theorem modeA_download_link_gate (outputs : List Dataset) (k : Nat) (ds : Dataset)
    (hne : outputs ≠ [])
    (hsel : (selectBestIdx outputs).1 = some (k, ds)) :
    (findYearLink ds.links (selectBestIdx outputs).2 = none ↔
      ∀ ls, ds.links = some ls → ∀ l ∈ ls,
        ¬(l.year = (selectBestIdx outputs).2 ∧ l.interval = 60)) ∧
    (findYearLink ds.links (selectBestIdx outputs).2 = none →
      modeA outputs = .noDownloadLink ds.displayName (selectBestIdx outputs).2) ∧
    (∀ l, findYearLink ds.links (selectBestIdx outputs).2 = some l →
      modeA outputs = .fetchSeries ds (selectBestIdx outputs).2 l ∧
      l.year = (selectBestIdx outputs).2 ∧ l.interval = 60) := by
  have hinv := selectBestIdx_inv outputs
  have hpos : 0 < (selectBestIdx outputs).2 := (hinv.2 k ds hsel).2.2.1
  have hpair : selectBestIdx outputs = (some (k, ds), (selectBestIdx outputs).2) := by
    rw [← hsel]
  have hmodeA : modeA outputs =
      (match findYearLink ds.links (selectBestIdx outputs).2 with
       | none => ModeAResult.noDownloadLink ds.displayName (selectBestIdx outputs).2
       | some l => ModeAResult.fetchSeries ds (selectBestIdx outputs).2 l) := by
    unfold modeA
    rw [if_neg (by simp [List.isEmpty_eq_false.mpr hne]), hpair]
    dsimp only
    rw [if_neg (by omega)]
  refine ⟨?_, ?_, ?_⟩
  · unfold findYearLink
    cases hls : ds.links with
    | none => simp
    | some ls =>
      rw [List.find?_eq_none]
      constructor
      · intro h ls' hls' l hl
        have hlse : ls = ls' := Option.some_inj.mp (hls ▸ hls')
        subst hlse
        have := h l hl
        simp only [Bool.and_eq_true, beq_iff_eq] at this
        tauto
      · intro h l hl
        have := h ls rfl l hl
        simp only [Bool.and_eq_true, beq_iff_eq]
        tauto
  · intro hnone
    rw [hmodeA, hnone]
  · intro l hsome
    cases hls : ds.links with
    | none =>
      unfold findYearLink at hsome
      simp [hls] at hsome
    | some ls =>
      have hf : List.find?
          (fun l2 => l2.year == (selectBestIdx outputs).2 && l2.interval == 60) ls =
          some l := by
        unfold findYearLink at hsome
        rw [hls] at hsome
        exact hsome
      have hpred := List.find?_some hf
      simp only [Bool.and_eq_true, beq_iff_eq] at hpred
      exact ⟨by rw [hmodeA, hsome], hpred.1, hpred.2⟩

theorem modeA_download_link_gate_witness :
    modeA outputsEx = .noDownloadLink dsA.displayName (selectBestIdx outputsEx).2 :=
  (modeA_download_link_gate outputsEx 0 dsA (by decide) (by decide)).2.1 (by decide)

/-! ### Claim about Mode B -/

/-- Claim C8: on a 2023 fetch success no further candidate is attempted and
the (single) 2023 result is whatever `parseSeries` makes of the body — also
when that is a parse error; on a retryable 2023 failure (status 400/404)
the next and last candidate 2022 is attempted; on a non-retryable 2023
failure Mode B stops at once with that status; and any produced result
carries exactly one candidate year. -/
theorem modeB_fallback_policy (fetchYear : Int → FetchOutcome) :
    (∀ body, fetchYear 2023 = .ok body →
      modeBTrace fetchYear = ([2023], .result 2023 (parseSeries body))) ∧
    (∀ s, fetchYear 2023 = .err s → retryableStatus s = true →
      (modeBTrace fetchYear).1 = [2023, 2022] ∧
      (∀ body2, fetchYear 2022 = .ok body2 →
        modeBTrace fetchYear = ([2023, 2022], .result 2022 (parseSeries body2))) ∧
      (∀ s2, fetchYear 2022 = .err s2 →
        modeBTrace fetchYear = ([2023, 2022], .fetchFailed s2))) ∧
    (∀ s, fetchYear 2023 = .err s → retryableStatus s = false →
      modeBTrace fetchYear = ([2023], .fetchFailed s)) ∧
    (∀ y out, (modeBTrace fetchYear).2 = .result y out → y = 2023 ∨ y = 2022) := by
  refine ⟨?_, ?_, ?_, ?_⟩
  · intro body h
    unfold modeBTrace
    rw [h]
  · intro s h hr
    unfold modeBTrace
    rw [h]
    dsimp only
    rw [if_pos hr]
    refine ⟨?_, fun body2 h2 => ?_, fun s2 h2 => ?_⟩
    · cases h2 : fetchYear 2022 <;> rfl
    · rw [h2]
    · rw [h2]
  · intro s h hr
    unfold modeBTrace
    rw [h]
    dsimp only
    rw [if_neg (by simp [hr])]
  · intro y out
    unfold modeBTrace
    cases h1 : fetchYear 2023 with
    | ok body =>
      dsimp only
      intro h
      simp at h
      omega
    | err s =>
      dsimp only
      by_cases hr : retryableStatus s = true
      · rw [if_pos hr]
        cases h2 : fetchYear 2022 with
        | ok body2 =>
          dsimp only
          intro h
          simp at h
          omega
        | err s2 =>
          dsimp only
          intro h
          simp at h
      · rw [if_neg hr]
        intro h
        simp at h

theorem modeB_fallback_policy_witness :
    (modeBTrace fetchEx).1 = [2023, 2022] ∧
    modeBTrace fetchEx = ([2023, 2022], .result 2022 (parseSeries csvSample)) := by
  have h := (modeB_fallback_policy fetchEx).2.1 404 (by decide) (by decide)
  exact ⟨h.1, h.2.1 csvSample (by decide)⟩

end SnapshotBackend
